import Mathlib

/-!
Formal model of `src/network.py` of the ChatList repository: the per-provider
API clients (`OpenAIClient`, `AnthropicClient`, `GoogleClient`,
`OpenRouterClient`), the registry `get_client`, and the fan-out dispatcher
`send_to_models`.

Modelling conventions:
* Python's dynamically typed JSON-like values (the result of `response.json()`,
  the fields of an `APIResponse`, ...) are modelled by the inductive `PyVal`.
* A Python operation that may raise is modelled in `Except String`, the error
  component being `str(exc)` of the raised exception.
* The HTTP layer is an oracle `net : HttpRequest → HttpResult`: `net req` is
  what `httpx` does for the single POST `req` that an adapter issues.  Each
  `send_message` model returns, next to the `APIResponse`, the list of HTTP
  requests it issued, so that "no network call" is a provable statement.
* The process environment (`os.getenv`) is a parameter `env : String → Option String`.
* `asyncio.gather(..., return_exceptions=True)` may hand the processing loop an
  exception instead of a result; this is modelled by a fault oracle
  `fault : Nat → Option String`, giving for task `i` the `str(exc)` of an
  injected task-level exception (`none` = the task ran `send_single` normally).
-/

/-- Python values as produced by `response.json()` (JSON-like dynamic values). -/
inductive PyVal where
  | null
  | bool (b : Bool)
  | num (n : Int)
  | str (s : String)
  | arr (xs : List PyVal)
  | obj (fields : List (String × PyVal))

/-- Python `type(v).__name__`, used in exception messages. -/
def pyTypeName : PyVal → String
  | .null => "NoneType"
  | .bool _ => "bool"
  | .num _ => "int"
  | .str _ => "str"
  | .arr _ => "list"
  | .obj _ => "dict"

mutual

/-- Python `repr(v)` for JSON-like values (`str(v)` quotes strings the same way
inside containers). -/
def pyRepr : PyVal → String
  | .null => "None"
  | .bool true => "True"
  | .bool false => "False"
  | .num n => toString n
  | .str s => "'" ++ s ++ "'"
  | .arr xs => "[" ++ String.intercalate ", " (pyReprList xs) ++ "]"
  | .obj fs => "\x7b" ++ String.intercalate ", " (pyReprFields fs) ++ "\x7d"

/-- Helper of `pyRepr` for list elements. -/
def pyReprList : List PyVal → List String
  | [] => []
  | x :: xs => pyRepr x :: pyReprList xs

/-- Helper of `pyRepr` for dict entries. -/
def pyReprFields : List (String × PyVal) → List String
  | [] => []
  | (k, v) :: fs => ("'" ++ k ++ "': " ++ pyRepr v) :: pyReprFields fs

end

/-- Python `str(v)`: like `repr` except that a top-level string is unquoted. -/
def pyStrTop : PyVal → String
  | .str s => s
  | v => pyRepr v

/-- Python subscript `v[k]` with a string key; the error is `str(exc)` of the
exception raised (KeyError / TypeError). -/
def PyVal.idxS : PyVal → String → Except String PyVal
  | .obj fs, k =>
    match fs.lookup k with
    | some v => .ok v
    | none => .error ("'" ++ k ++ "'")
  | .arr _, _ => .error "list indices must be integers or slices, not str"
  | .str _, _ => .error "string indices must be integers"
  | v, _ => .error ("'" ++ pyTypeName v ++ "' object is not subscriptable")

/-- Python subscript `v[i]` with a natural-number index. -/
def PyVal.idxN : PyVal → Nat → Except String PyVal
  | .arr xs, i =>
    match xs.get? i with
    | some v => .ok v
    | none => .error "list index out of range"
  | .str s, i =>
    match s.toList.get? i with
    | some ch => .ok (.str (String.singleton ch))
    | none => .error "string index out of range"
  | .obj _, i => .error (toString i)
  | v, _ => .error ("'" ++ pyTypeName v ++ "' object is not subscriptable")

/-- Python `v.get(k, d)`: only dicts have `.get`; on anything else the
attribute access raises AttributeError. -/
def PyVal.getA : PyVal → String → PyVal → Except String PyVal
  | .obj fs, k, d => .ok ((fs.lookup k).getD d)
  | v, _, _ => .error ("'" ++ pyTypeName v ++ "' object has no attribute 'get'")

/-- Python `a + b` on dynamic values (used for the Anthropic token sum). -/
def pyAdd : PyVal → PyVal → Except String PyVal
  | .num a, .num b => .ok (.num (a + b))
  | .num a, .bool b => .ok (.num (a + (if b then 1 else 0)))
  | .bool a, .num b => .ok (.num ((if a then 1 else 0) + b))
  | .bool a, .bool b => .ok (.num ((if a then 1 else 0) + (if b then 1 else 0)))
  | .str a, .str b => .ok (.str (a ++ b))
  | .arr a, .arr b => .ok (.arr (a ++ b))
  | a, b =>
    .error ("unsupported operand type(s) for +: '" ++ pyTypeName a ++ "' and '"
      ++ pyTypeName b ++ "'")

/-- One outbound HTTP POST as built by an adapter. -/
structure HttpRequest where
  url : String
  headers : List (String × String)
  body : PyVal

/-- What the HTTP layer does for one request: raise `httpx.TimeoutException`,
raise some other transport exception (with `str(exc) = msg`), or deliver a
response with a status code, a raw text body, and the outcome of
`response.json()` (`Except.error` = the JSON decode exception's message). -/
inductive HttpResult where
  | timeout
  | exc (msg : String)
  | response (status : Nat) (text : String) (json : Except String PyVal)

/-- Which concrete client class `get_client` instantiated. -/
inductive ProviderKind where
  | openai
  | anthropic
  | google
  | openrouter
deriving DecidableEq

/-- State of a `BaseAPIClient` instance: `api_key` already holds
`os.getenv(api_key_env, "")` as resolved by `__init__`. -/
structure BaseAPIClient where
  kind : ProviderKind
  api_url : String
  api_key : String
  model_id : String
  timeout : Nat

/-- `BaseAPIClient.is_configured`: `bool(self.api_key)`. -/
def BaseAPIClient.is_configured (c : BaseAPIClient) : Bool :=
  c.api_key != ""

/-- `APIResponse` dataclass.  `content` and `tokens` are dynamic values, as in
Python (`tokens` defaults to `0`, `error` to `None`). -/
structure APIResponse where
  success : Bool
  content : PyVal
  tokens : PyVal := .num 0
  error : Option String := none

/-- `APIResponse(success=False, content="", error=e)` — the shape every failure
branch of the adapters constructs. -/
def APIResponse.fail (e : String) : APIResponse :=
  { success := false, content := .str "", tokens := .num 0, error := some e }

/-- Error-message recovery of the OpenAI/OpenRouter non-200 branch:
`error_data = response.json(); error_data.get("error", \x7b\x7d).get("message",
str(error_data))`, falling back to `response.text[:200]` if anything raises. -/
def non200Msg (jres : Except String PyVal) (text : String) : String :=
  match (do
      let ed ← jres
      let e1 ← ed.getA "error" (.obj [])
      let m ← e1.getA "message" (.str (pyStrTop ed))
      pure m : Except String PyVal) with
  | .ok v => pyStrTop v
  | .error _ => text.take 200

/-- The POST request `OpenAIClient.send_message` issues. -/
def openaiRequest (c : BaseAPIClient) (prompt : String) : HttpRequest :=
  { url := c.api_url ++ "/completions"
    headers :=
      [("Authorization", "Bearer " ++ c.api_key), ("Content-Type", "application/json")]
    body := .obj
      [("model", .str c.model_id),
       ("messages", .arr [.obj [("role", .str "user"), ("content", .str prompt)]]),
       ("max_tokens", .num 4096)] }

/-- `content = result["choices"][0]["message"]["content"]` in `OpenAIClient`. -/
def openaiContent (result : PyVal) : Except String PyVal := do
  let choices ← result.idxS "choices"
  let c0 ← choices.idxN 0
  let msg ← c0.idxS "message"
  msg.idxS "content"

/-- `tokens = result.get("usage", \x7b\x7d).get("total_tokens", 0)` in `OpenAIClient`. -/
def openaiTokens (result : PyVal) : Except String PyVal := do
  let u ← result.getA "usage" (.obj [])
  u.getA "total_tokens" (.num 0)

/-- The two parse lines of `OpenAIClient.send_message`, in source order. -/
def openaiParse (result : PyVal) : Except String (PyVal × PyVal) := do
  let content ← openaiContent result
  let tokens ← openaiTokens result
  pure (content, tokens)

/-- Body of `OpenAIClient.send_message` from the `client.post` on: the explicit
`status_code != 200` check, the parse, and the `except` clauses (the
`HTTPStatusError` clause is dead code there, since nothing raises it). -/
def openaiHandle : HttpResult → APIResponse
  | .timeout => .fail "Превышено время ожидания ответа"
  | .exc m => .fail m
  | .response status text jres =>
    if status ≠ 200 then
      .fail ("HTTP " ++ toString status ++ ": " ++ non200Msg jres text)
    else
      match jres with
      | .error m => .fail m
      | .ok result =>
        match openaiParse result with
        | .error m => .fail m
        | .ok (content, tokens) =>
          { success := true, content := content, tokens := tokens, error := none }

/-- `OpenAIClient.send_message`, also reporting the HTTP requests issued. -/
def OpenAIClient.send_message (net : HttpRequest → HttpResult)
    (c : BaseAPIClient) (prompt : String) : APIResponse × List HttpRequest :=
  if c.is_configured then
    let req := openaiRequest c prompt
    (openaiHandle (net req), [req])
  else
    (.fail "API-ключ не настроен", [])

/-- The POST request `AnthropicClient.send_message` issues. -/
def anthropicRequest (c : BaseAPIClient) (prompt : String) : HttpRequest :=
  { url := c.api_url
    headers :=
      [("x-api-key", c.api_key), ("Content-Type", "application/json"),
       ("anthropic-version", "2023-06-01")]
    body := .obj
      [("model", .str c.model_id),
       ("max_tokens", .num 4096),
       ("messages", .arr [.obj [("role", .str "user"), ("content", .str prompt)]])] }

/-- `content = result["content"][0]["text"]` in `AnthropicClient`. -/
def anthropicContent (result : PyVal) : Except String PyVal := do
  let arr ← result.idxS "content"
  let c0 ← arr.idxN 0
  c0.idxS "text"

/-- `tokens = result.get("usage", \x7b\x7d).get("input_tokens", 0) +
result.get("usage", \x7b\x7d).get("output_tokens", 0)` in `AnthropicClient`. -/
def anthropicTokens (result : PyVal) : Except String PyVal := do
  let u1 ← result.getA "usage" (.obj [])
  let it ← u1.getA "input_tokens" (.num 0)
  let u2 ← result.getA "usage" (.obj [])
  let ot ← u2.getA "output_tokens" (.num 0)
  pyAdd it ot

/-- The two parse lines of `AnthropicClient.send_message`, in source order. -/
def anthropicParse (result : PyVal) : Except String (PyVal × PyVal) := do
  let content ← anthropicContent result
  let tokens ← anthropicTokens result
  pure (content, tokens)

/-- Body of `AnthropicClient.send_message` from the `client.post` on:
`raise_for_status()` (raises `HTTPStatusError` for any non-2xx status, caught
by the dedicated clause), the parse, and the `except` clauses. -/
def anthropicHandle : HttpResult → APIResponse
  | .timeout => .fail "Превышено время ожидания ответа"
  | .exc m => .fail m
  | .response status _text jres =>
    if 200 ≤ status ∧ status < 300 then
      match jres with
      | .error m => .fail m
      | .ok result =>
        match anthropicParse result with
        | .error m => .fail m
        | .ok (content, tokens) =>
          { success := true, content := content, tokens := tokens, error := none }
    else
      .fail ("HTTP ошибка: " ++ toString status)

/-- `AnthropicClient.send_message`, also reporting the HTTP requests issued. -/
def AnthropicClient.send_message (net : HttpRequest → HttpResult)
    (c : BaseAPIClient) (prompt : String) : APIResponse × List HttpRequest :=
  if c.is_configured then
    let req := anthropicRequest c prompt
    (anthropicHandle (net req), [req])
  else
    (.fail "API-ключ не настроен", [])

/-- The POST request `GoogleClient.send_message` issues (the key travels in the
query string). -/
def googleRequest (c : BaseAPIClient) (prompt : String) : HttpRequest :=
  { url := c.api_url ++ "/models/" ++ c.model_id ++ ":generateContent?key=" ++ c.api_key
    headers := [("Content-Type", "application/json")]
    body := .obj [("contents", .arr [.obj [("parts", .arr [.obj [("text", .str prompt)]])]])] }

/-- `content = result["candidates"][0]["content"]["parts"][0]["text"]` in `GoogleClient`. -/
def googleContent (result : PyVal) : Except String PyVal := do
  let cands ← result.idxS "candidates"
  let c0 ← cands.idxN 0
  let cnt ← c0.idxS "content"
  let parts ← cnt.idxS "parts"
  let p0 ← parts.idxN 0
  p0.idxS "text"

/-- `tokens = result.get("usageMetadata", \x7b\x7d).get("totalTokenCount", 0)`
in `GoogleClient`. -/
def googleTokens (result : PyVal) : Except String PyVal := do
  let um ← result.getA "usageMetadata" (.obj [])
  um.getA "totalTokenCount" (.num 0)

/-- The two parse lines of `GoogleClient.send_message`, in source order. -/
def googleParse (result : PyVal) : Except String (PyVal × PyVal) := do
  let content ← googleContent result
  let tokens ← googleTokens result
  pure (content, tokens)

/-- Body of `GoogleClient.send_message` from the `client.post` on (same shape
as the Anthropic handler: `raise_for_status()` then parse). -/
def googleHandle : HttpResult → APIResponse
  | .timeout => .fail "Превышено время ожидания ответа"
  | .exc m => .fail m
  | .response status _text jres =>
    if 200 ≤ status ∧ status < 300 then
      match jres with
      | .error m => .fail m
      | .ok result =>
        match googleParse result with
        | .error m => .fail m
        | .ok (content, tokens) =>
          { success := true, content := content, tokens := tokens, error := none }
    else
      .fail ("HTTP ошибка: " ++ toString status)

/-- `GoogleClient.send_message`, also reporting the HTTP requests issued. -/
def GoogleClient.send_message (net : HttpRequest → HttpResult)
    (c : BaseAPIClient) (prompt : String) : APIResponse × List HttpRequest :=
  if c.is_configured then
    let req := googleRequest c prompt
    (googleHandle (net req), [req])
  else
    (.fail "API-ключ не настроен", [])

/-- The POST request `OpenRouterClient.send_message` issues. -/
def openrouterRequest (c : BaseAPIClient) (prompt : String) : HttpRequest :=
  { url := c.api_url ++ "/chat/completions"
    headers :=
      [("Authorization", "Bearer " ++ c.api_key), ("Content-Type", "application/json"),
       ("HTTP-Referer", "https://github.com/chatlist"), ("X-Title", "ChatList")]
    body := .obj
      [("model", .str c.model_id),
       ("messages", .arr [.obj [("role", .str "user"), ("content", .str prompt)]]),
       ("max_tokens", .num 4096)] }

/-- `content = result["choices"][0]["message"]["content"]` in `OpenRouterClient`
(duplicated from `OpenAIClient` in the source). -/
def openrouterContent (result : PyVal) : Except String PyVal := do
  let choices ← result.idxS "choices"
  let c0 ← choices.idxN 0
  let msg ← c0.idxS "message"
  msg.idxS "content"

/-- `tokens = result.get("usage", \x7b\x7d).get("total_tokens", 0)` in `OpenRouterClient`. -/
def openrouterTokens (result : PyVal) : Except String PyVal := do
  let u ← result.getA "usage" (.obj [])
  u.getA "total_tokens" (.num 0)

/-- The two parse lines of `OpenRouterClient.send_message`, in source order. -/
def openrouterParse (result : PyVal) : Except String (PyVal × PyVal) := do
  let content ← openrouterContent result
  let tokens ← openrouterTokens result
  pure (content, tokens)

/-- Body of `OpenRouterClient.send_message` from the `client.post` on
(duplicated from `OpenAIClient` in the source). -/
def openrouterHandle : HttpResult → APIResponse
  | .timeout => .fail "Превышено время ожидания ответа"
  | .exc m => .fail m
  | .response status text jres =>
    if status ≠ 200 then
      .fail ("HTTP " ++ toString status ++ ": " ++ non200Msg jres text)
    else
      match jres with
      | .error m => .fail m
      | .ok result =>
        match openrouterParse result with
        | .error m => .fail m
        | .ok (content, tokens) =>
          { success := true, content := content, tokens := tokens, error := none }

/-- `OpenRouterClient.send_message`, also reporting the HTTP requests issued. -/
def OpenRouterClient.send_message (net : HttpRequest → HttpResult)
    (c : BaseAPIClient) (prompt : String) : APIResponse × List HttpRequest :=
  if c.is_configured then
    let req := openrouterRequest c prompt
    (openrouterHandle (net req), [req])
  else
    (.fail "API-ключ не настроен", [])

/-- `get_client(provider, api_url, api_key_env, model_id)`: the registry dict
lookup with `OpenAIClient` as the default, and the `BaseAPIClient.__init__`
field assignments (`api_key = os.getenv(api_key_env, "")`, default timeout 60). -/
def get_client (env : String → Option String)
    (provider api_url api_key_env model_id : String) : BaseAPIClient :=
  let kind : ProviderKind :=
    if provider = "openai" then .openai
    else if provider = "anthropic" then .anthropic
    else if provider = "google" then .google
    else if provider = "openrouter" then .openrouter
    else .openai
  { kind := kind, api_url := api_url, api_key := (env api_key_env).getD ""
    model_id := model_id, timeout := 60 }

/-- Dynamic dispatch of `client.send_message(prompt)` over the concrete class. -/
def send_message (net : HttpRequest → HttpResult) (c : BaseAPIClient)
    (prompt : String) : APIResponse × List HttpRequest :=
  match c.kind with
  | .openai => OpenAIClient.send_message net c prompt
  | .anthropic => AnthropicClient.send_message net c prompt
  | .google => GoogleClient.send_message net c prompt
  | .openrouter => OpenRouterClient.send_message net c prompt

/-- The request the client for a given kind would issue (for stating theorems
uniformly over the four adapters). -/
def requestFor (c : BaseAPIClient) (prompt : String) : HttpRequest :=
  match c.kind with
  | .openai => openaiRequest c prompt
  | .anthropic => anthropicRequest c prompt
  | .google => googleRequest c prompt
  | .openrouter => openrouterRequest c prompt

/-- The parse (content line then tokens line) of the adapter for a given kind. -/
def parseFor (k : ProviderKind) : PyVal → Except String (PyVal × PyVal) :=
  match k with
  | .openai => openaiParse
  | .anthropic => anthropicParse
  | .google => googleParse
  | .openrouter => openrouterParse

/-- One entry of the `models` list handed to `send_to_models` (a row of the
`models` table: `id`, `name`, `provider`, `api_url`, `api_key_env`, `model_id`). -/
structure ModelRec where
  id : Int
  name : String
  provider : String
  api_url : String
  api_key_env : String
  model_id : String
deriving DecidableEq

/-- One result dict of `send_to_models`. -/
structure BatchRecord where
  model_id : Int
  model_name : String
  prompt_text : String
  response : PyVal
  tokens : PyVal
  success : Bool
  error : Option String

/-- Python `f-string` rendering of an `Optional[str]`. -/
def optStr : Option String → String
  | none => "None"
  | some s => s

/-- The client `send_single` builds: `get_client(...)` then
`client.timeout = timeout`. -/
def clientFor (env : String → Option String) (m : ModelRec) (timeout : Nat) :
    BaseAPIClient :=
  { get_client env m.provider m.api_url m.api_key_env m.model_id with timeout := timeout }

/-- `send_single(model)` inside `send_to_models`, with the HTTP requests it
issued. -/
def send_single (net : HttpRequest → HttpResult) (env : String → Option String)
    (prompt : String) (timeout : Nat) (m : ModelRec) :
    BatchRecord × List HttpRequest :=
  let pr := send_message net (clientFor env m timeout) prompt
  ({ model_id := m.id
     model_name := m.name
     prompt_text := prompt
     response :=
       if pr.1.success then pr.1.content
       else .str ("Ошибка: " ++ optStr pr.1.error)
     tokens := pr.1.tokens
     success := pr.1.success
     error := pr.1.error }, pr.2)

/-- The record the exception branch of the processing loop of `send_to_models`
builds from `models[i]` and `str(result)`. -/
def exceptionRecord (prompt : String) (m : ModelRec) (msg : String) : BatchRecord :=
  { model_id := m.id
    model_name := m.name
    prompt_text := prompt
    response := .str ("Ошибка: " ++ msg)
    tokens := .num 0
    success := false
    error := some msg }

/-- The task list plus gather-and-process loop of `send_to_models`: task `i`
either raised (then `fault i = some msg` and the exception branch of the
processing loop runs on `models[i]`) or returned `send_single(models[i])`. -/
def sendLoop (net : HttpRequest → HttpResult) (env : String → Option String)
    (fault : Nat → Option String) (prompt : String) (timeout : Nat) :
    Nat → List ModelRec → List (BatchRecord × List HttpRequest)
  | _, [] => []
  | i, m :: ms =>
    (match fault i with
     | some msg => (exceptionRecord prompt m msg, [])
     | none => send_single net env prompt timeout m)
      :: sendLoop net env fault prompt timeout (i + 1) ms

/-- `send_to_models(prompt, models, timeout)`: the processed result list, and
(for request accounting) the concatenation of all HTTP requests issued. -/
def send_to_models (net : HttpRequest → HttpResult) (env : String → Option String)
    (fault : Nat → Option String) (prompt : String) (models : List ModelRec)
    (timeout : Nat) : List BatchRecord × List HttpRequest :=
  let outs := sendLoop net env fault prompt timeout 0 models
  (outs.map Prod.fst, (outs.map Prod.snd).flatten)

/-- Substring containment, `sub in s` in Python terms (for claims about what an
error string contains). -/
def strHas (s sub : String) : Prop :=
  List.IsInfix sub.toList s.toList

instance (s sub : String) : Decidable (strHas s sub) :=
  List.decidableInfix sub.toList s.toList

/-! ### Concrete objects for witnesses and counterexamples -/

/-- An environment with no variables set. -/
def envW : String → Option String := fun _ => none

/-- An HTTP layer where every request times out. -/
def netW : HttpRequest → HttpResult := fun _ => .timeout

/-- A sample model row (provider `openai`). -/
def mW : ModelRec :=
  { id := 7, name := "A", provider := "openai", api_url := "u", api_key_env := "K"
    model_id := "m" }

/-- A second sample model row (provider `anthropic`). -/
def mW2 : ModelRec :=
  { id := 8, name := "B", provider := "anthropic", api_url := "v", api_key_env := "K"
    model_id := "n" }

/-- A configured OpenAI-compatible client. -/
def cOai : BaseAPIClient :=
  { kind := .openai, api_url := "u", api_key := "k", model_id := "m", timeout := 60 }

/-- A configured Anthropic client. -/
def cAnth : BaseAPIClient :=
  { kind := .anthropic, api_url := "u", api_key := "k", model_id := "m", timeout := 60 }

/-- The body `\x7b"error": \x7b"message": "boom"\x7d\x7d` of the C2 scenario. -/
def boomBody : PyVal :=
  .obj [("error", .obj [("message", .str "boom")])]

/-- An HTTP layer answering status 500 with the `boom` body to every request. -/
def net500 : HttpRequest → HttpResult := fun _ => .response 500 "" (.ok boomBody)

/-- An HTTP layer answering 200 with an empty JSON object (no expected fields). -/
def net200bad : HttpRequest → HttpResult := fun _ => .response 200 "" (.ok (.obj []))

/-- A well-formed OpenAI-compatible 200 body with 42 total tokens. -/
def bodyTok : PyVal :=
  .obj [("choices", .arr [.obj [("message", .obj [("content", .str "hi")])]]),
        ("usage", .obj [("total_tokens", .num 42)])]

/-- An HTTP layer answering 200 with `bodyTok` to every request. -/
def netTok : HttpRequest → HttpResult := fun _ => .response 200 "" (.ok bodyTok)

/-- A fault oracle where task 0 raises with description `task blew up`. -/
def faultW : Nat → Option String := fun j => if j = 0 then some "task blew up" else none

/-- The single record `send_to_models` produces for `mW` under `envW`/`netW`
(the key is unresolved, so it is the NotConfigured failure record). -/
def rW : BatchRecord := (send_single netW envW "p" 60 mW).1

/-! ### Invariant helper lemmas -/

/-- The invariant every adapter `APIResponse` satisfies: the error field is
populated exactly on failure, and failures carry empty content and zero tokens. -/
def RespInv (r : APIResponse) : Prop :=
  (r.success = true ↔ r.error = none) ∧
  (r.success = false → r.content = .str "" ∧ r.tokens = .num 0)

theorem fail_RespInv (e : String) : RespInv (APIResponse.fail e) := by
  simp [RespInv, APIResponse.fail]

theorem openaiHandle_RespInv (h : HttpResult) : RespInv (openaiHandle h) := by
  cases h with
  | timeout => exact fail_RespInv _
  | exc m => exact fail_RespInv _
  | response status text jres =>
    simp only [openaiHandle]
    split
    · exact fail_RespInv _
    · cases jres with
      | error m => exact fail_RespInv _
      | ok result =>
        cases hp : openaiParse result with
        | error m => simp only [hp]; exact fail_RespInv _
        | ok v =>
          obtain ⟨cv, tv⟩ := v
          simp only [hp]
          simp [RespInv]

theorem anthropicHandle_RespInv (h : HttpResult) : RespInv (anthropicHandle h) := by
  cases h with
  | timeout => exact fail_RespInv _
  | exc m => exact fail_RespInv _
  | response status text jres =>
    simp only [anthropicHandle]
    split
    · cases jres with
      | error m => exact fail_RespInv _
      | ok result =>
        cases hp : anthropicParse result with
        | error m => simp only [hp]; exact fail_RespInv _
        | ok v =>
          obtain ⟨cv, tv⟩ := v
          simp only [hp]
          simp [RespInv]
    · exact fail_RespInv _

theorem googleHandle_RespInv (h : HttpResult) : RespInv (googleHandle h) := by
  cases h with
  | timeout => exact fail_RespInv _
  | exc m => exact fail_RespInv _
  | response status text jres =>
    simp only [googleHandle]
    split
    · cases jres with
      | error m => exact fail_RespInv _
      | ok result =>
        cases hp : googleParse result with
        | error m => simp only [hp]; exact fail_RespInv _
        | ok v =>
          obtain ⟨cv, tv⟩ := v
          simp only [hp]
          simp [RespInv]
    · exact fail_RespInv _

theorem openrouterHandle_RespInv (h : HttpResult) : RespInv (openrouterHandle h) := by
  cases h with
  | timeout => exact fail_RespInv _
  | exc m => exact fail_RespInv _
  | response status text jres =>
    simp only [openrouterHandle]
    split
    · exact fail_RespInv _
    · cases jres with
      | error m => exact fail_RespInv _
      | ok result =>
        cases hp : openrouterParse result with
        | error m => simp only [hp]; exact fail_RespInv _
        | ok v =>
          obtain ⟨cv, tv⟩ := v
          simp only [hp]
          simp [RespInv]

theorem send_message_RespInv (net : HttpRequest → HttpResult) (c : BaseAPIClient)
    (prompt : String) : RespInv (send_message net c prompt).1 := by
  cases hk : c.kind <;>
    simp only [send_message, hk, OpenAIClient.send_message, AnthropicClient.send_message,
      GoogleClient.send_message, OpenRouterClient.send_message] <;>
    split <;>
    first
    | exact openaiHandle_RespInv _
    | exact anthropicHandle_RespInv _
    | exact googleHandle_RespInv _
    | exact openrouterHandle_RespInv _
    | exact fail_RespInv _

theorem send_message_unconfigured (net : HttpRequest → HttpResult)
    (c : BaseAPIClient) (prompt : String) (h : c.is_configured = false) :
    send_message net c prompt = (APIResponse.fail "API-ключ не настроен", []) := by
  cases hk : c.kind <;>
    simp [send_message, hk, OpenAIClient.send_message, AnthropicClient.send_message,
      GoogleClient.send_message, OpenRouterClient.send_message, h]

theorem send_message_req_count (net : HttpRequest → HttpResult)
    (c : BaseAPIClient) (prompt : String) :
    (send_message net c prompt).2.length = if c.is_configured then 1 else 0 := by
  cases hk : c.kind <;>
    simp only [send_message, hk, OpenAIClient.send_message, AnthropicClient.send_message,
      GoogleClient.send_message, OpenRouterClient.send_message] <;>
    split <;> simp_all

/-- The record/error invariant of the batch records `send_to_models` builds. -/
def RecInv (r : BatchRecord) : Prop :=
  (r.success = true ↔ r.error = none) ∧
  (r.success = false → ∃ e, r.error = some e ∧ r.response = .str ("Ошибка: " ++ e))

theorem send_single_RecInv (net : HttpRequest → HttpResult)
    (env : String → Option String) (prompt : String) (timeout : Nat) (m : ModelRec) :
    RecInv (send_single net env prompt timeout m).1 := by
  obtain ⟨h1, _h2⟩ := send_message_RespInv net (clientFor env m timeout) prompt
  constructor
  · simpa [send_single] using h1
  · intro hs
    simp only [send_single] at hs ⊢
    cases he : (send_message net (clientFor env m timeout) prompt).1.error with
    | none =>
      rw [h1.mpr he] at hs
      simp at hs
    | some e =>
      refine ⟨e, rfl, ?_⟩
      simp [hs, he, optStr]

theorem exceptionRecord_RecInv (prompt : String) (m : ModelRec) (msg : String) :
    RecInv (exceptionRecord prompt m msg) := by
  simp [RecInv, exceptionRecord]

theorem sendLoop_length (net : HttpRequest → HttpResult) (env : String → Option String)
    (fault : Nat → Option String) (prompt : String) (timeout : Nat) :
    ∀ (i : Nat) (ms : List ModelRec),
      (sendLoop net env fault prompt timeout i ms).length = ms.length := by
  intro i ms
  induction ms generalizing i with
  | nil => simp [sendLoop]
  | cons m ms ih => simp [sendLoop, ih]

theorem sendLoop_getElem? (net : HttpRequest → HttpResult) (env : String → Option String)
    (fault : Nat → Option String) (prompt : String) (timeout : Nat) :
    ∀ (ms : List ModelRec) (i j : Nat),
      (sendLoop net env fault prompt timeout i ms)[j]? =
        (ms[j]?).map (fun m =>
          match fault (i + j) with
          | some msg => (exceptionRecord prompt m msg, [])
          | none => send_single net env prompt timeout m) := by
  intro ms
  induction ms with
  | nil => intro i j; simp [sendLoop]
  | cons m ms ih =>
    intro i j
    cases j with
    | zero => simp [sendLoop]
    | succ j =>
      simp only [sendLoop, List.getElem?_cons_succ, ih]
      have : i + 1 + j = i + (j + 1) := by omega
      rw [this]

theorem sendLoop_mem (net : HttpRequest → HttpResult) (env : String → Option String)
    (fault : Nat → Option String) (prompt : String) (timeout : Nat)
    (P : BatchRecord × List HttpRequest → Prop) :
    ∀ (i : Nat) (ms : List ModelRec),
      (∀ m ∈ ms, ∀ msg, P (exceptionRecord prompt m msg, [])) →
      (∀ m ∈ ms, P (send_single net env prompt timeout m)) →
      ∀ r ∈ sendLoop net env fault prompt timeout i ms, P r := by
  intro i ms
  induction ms generalizing i with
  | nil => intro _ _ r hr; simp [sendLoop] at hr
  | cons m ms ih =>
    intro hexc hsend r hr
    simp only [sendLoop, List.mem_cons] at hr
    rcases hr with h | h
    · subst h
      cases hf : fault i with
      | some msg => simpa [hf] using hexc m (by simp) msg
      | none => simpa [hf] using hsend m (by simp)
    · exact ih (i + 1) (fun x hx msg => hexc x (by simp [hx]) msg)
        (fun x hx => hsend x (by simp [hx])) r h

theorem sendLoop_nofault_snd (net : HttpRequest → HttpResult)
    (env : String → Option String) (prompt : String) (timeout : Nat) :
    ∀ (i : Nat) (ms : List ModelRec),
      (sendLoop net env (fun _ => none) prompt timeout i ms).map Prod.snd =
        ms.map (fun m => (send_message net (clientFor env m timeout) prompt).2) := by
  intro i ms
  induction ms generalizing i with
  | nil => simp [sendLoop]
  | cons m ms ih => simp [sendLoop, ih, send_single]

theorem send_to_models_RecInv (net : HttpRequest → HttpResult)
    (env : String → Option String) (fault : Nat → Option String) (prompt : String)
    (models : List ModelRec) (timeout : Nat) :
    ∀ r ∈ (send_to_models net env fault prompt models timeout).1, RecInv r := by
  intro r hr
  simp only [send_to_models, List.mem_map] at hr
  obtain ⟨pr, hpr, rfl⟩ := hr
  exact sendLoop_mem net env fault prompt timeout (fun q => RecInv q.1) 0 models
    (fun m _ msg => exceptionRecord_RecInv prompt m msg)
    (fun m _ => send_single_RecInv net env prompt timeout m) pr hpr

theorem sendLoop_nofault_fst (net : HttpRequest → HttpResult)
    (env : String → Option String) (prompt : String) (timeout : Nat) :
    ∀ (i : Nat) (ms : List ModelRec),
      (sendLoop net env (fun _ => none) prompt timeout i ms).map Prod.fst =
        ms.map (fun m => (send_single net env prompt timeout m).1) := by
  intro i ms
  induction ms generalizing i with
  | nil => simp [sendLoop]
  | cons m ms ih => simp [sendLoop, ih]

theorem mapFlatten_nil (f : ModelRec → List HttpRequest) :
    ∀ ms : List ModelRec, (∀ m ∈ ms, f m = []) → (ms.map f).flatten = [] := by
  intro ms h
  induction ms with
  | nil => simp
  | cons m ms ih =>
    simp only [List.map_cons, List.flatten_cons, h m (by simp), List.nil_append]
    exact ih (fun x hx => h x (by simp [hx]))

theorem mapFlatten_len_le (f : ModelRec → List HttpRequest)
    (hf : ∀ m, (f m).length ≤ 1) :
    ∀ ms : List ModelRec, ((ms.map f).flatten).length ≤ ms.length := by
  intro ms
  induction ms with
  | nil => simp
  | cons m ms ih =>
    simp only [List.map_cons, List.flatten_cons, List.length_append, List.length_cons]
    have := hf m
    omega

/-! ### Claims -/

/-- C1: for every prompt, every ordered list of N model configs, every timeout
(and any HTTP-layer, environment and task-fault behaviour), `send_to_models`
returns exactly N records, and the i-th record's `model_id` and `model_name`
are copied from the i-th input model, whether that task succeeded, failed, or
raised. -/
theorem C1_batch_alignment (net : HttpRequest → HttpResult)
    (env : String → Option String) (fault : Nat → Option String) (prompt : String)
    (models : List ModelRec) (timeout : Nat) :
    (send_to_models net env fault prompt models timeout).1.length = models.length ∧
    ∀ (i : Nat) (m : ModelRec), models[i]? = some m →
      ∃ r, (send_to_models net env fault prompt models timeout).1[i]? = some r ∧
        r.model_id = m.id ∧ r.model_name = m.name := by
  constructor
  · simp [send_to_models, sendLoop_length]
  · intro i m hm
    have hg := sendLoop_getElem? net env fault prompt timeout models 0 i
    rw [hm] at hg
    simp only [send_to_models, List.getElem?_map, hg, Option.map_some']
    cases hf : fault (0 + i) with
    | some msg => exact ⟨_, rfl, rfl, rfl⟩
    | none => exact ⟨_, rfl, rfl, rfl⟩

theorem C1_batch_alignment_witness :
    (([mW, mW2] : List ModelRec)[1]? = some mW2) ∧
    ∃ r, (send_to_models netW envW (fun _ => none) "p" [mW, mW2] 60).1[1]? = some r ∧
      r.model_id = mW2.id ∧ r.model_name = mW2.name :=
  ⟨rfl, (C1_batch_alignment netW envW (fun _ => none) "p" [mW, mW2] 60).2 1 mW2 rfl⟩

/-- C3: if the task for index i raises (any exception, with description `msg`),
`send_to_models` catches it and places at index i a failure record with
`error = msg`, and any index whose task did not raise gets exactly the record
`send_single` produced for it — no exception propagates out of
`send_to_models`. -/
theorem C3_fault_isolation (net : HttpRequest → HttpResult)
    (env : String → Option String) (fault : Nat → Option String) (prompt : String)
    (models : List ModelRec) (timeout : Nat) (i : Nat) (h : i < models.length) :
    (∀ msg, fault i = some msg →
      ∃ r, (send_to_models net env fault prompt models timeout).1[i]? = some r ∧
        r.success = false ∧ r.error = some msg) ∧
    (fault i = none →
      (send_to_models net env fault prompt models timeout).1[i]? =
        some (send_single net env prompt timeout models[i]).1) := by
  have hm : models[i]? = some models[i] := List.getElem?_eq_getElem h
  have hg := sendLoop_getElem? net env fault prompt timeout models 0 i
  rw [hm] at hg
  rw [Nat.zero_add] at hg
  constructor
  · intro msg hf
    rw [hf] at hg
    simp only [send_to_models, List.getElem?_map, hg, Option.map_some']
    exact ⟨_, rfl, rfl, rfl⟩
  · intro hf
    rw [hf] at hg
    simp only [send_to_models, List.getElem?_map, hg, Option.map_some']

theorem C3_fault_isolation_witness :
    (0 < ([mW, mW2] : List ModelRec).length) ∧
    (faultW 0 = some "task blew up") ∧
    (∃ r, (send_to_models netW envW faultW "p" [mW, mW2] 60).1[0]? = some r ∧
      r.success = false ∧ r.error = some "task blew up") ∧
    (faultW 1 = none) ∧
    ((send_to_models netW envW faultW "p" [mW, mW2] 60).1[1]? =
      some (send_single netW envW "p" 60 mW2).1) :=
  ⟨by decide, rfl,
   (C3_fault_isolation netW envW faultW "p" [mW, mW2] 60 0 (by decide)).1 "task blew up" rfl,
   rfl,
   (C3_fault_isolation netW envW faultW "p" [mW, mW2] 60 1 (by decide)).2 rfl⟩

/-- C5: `get_client` maps `"openai"`, `"anthropic"`, `"google"`, `"openrouter"`
to the corresponding client class and instantiates the OpenAI-compatible
client for every other provider string (a default, never an error). -/
theorem C5_registry_default (env : String → Option String) (url keyEnv mid : String) :
    (get_client env "openai" url keyEnv mid).kind = .openai ∧
    (get_client env "anthropic" url keyEnv mid).kind = .anthropic ∧
    (get_client env "google" url keyEnv mid).kind = .google ∧
    (get_client env "openrouter" url keyEnv mid).kind = .openrouter ∧
    ∀ p : String, p ≠ "openai" → p ≠ "anthropic" → p ≠ "google" → p ≠ "openrouter" →
      (get_client env p url keyEnv mid).kind = .openai := by
  refine ⟨rfl, rfl, rfl, rfl, ?_⟩
  intro p h1 h2 h3 h4
  simp [get_client, h1, h2, h3, h4]

theorem C5_registry_default_witness :
    ("mistral" ≠ "openai") ∧
    (get_client envW "mistral" "u" "K" "m").kind = .openai :=
  ⟨by decide,
   (C5_registry_default envW "u" "K" "m").2.2.2.2 "mistral"
     (by decide) (by decide) (by decide) (by decide)⟩

/-- C8: for every outcome produced by `send_message` and every record produced
by `send_to_models`, the error field is `None` exactly when the success flag is
true. -/
theorem C8_error_iff_failure :
    (∀ (net : HttpRequest → HttpResult) (c : BaseAPIClient) (prompt : String),
      ((send_message net c prompt).1.success = true ↔
        (send_message net c prompt).1.error = none)) ∧
    (∀ (net : HttpRequest → HttpResult) (env : String → Option String)
        (fault : Nat → Option String) (prompt : String) (models : List ModelRec)
        (timeout : Nat) (r : BatchRecord),
      r ∈ (send_to_models net env fault prompt models timeout).1 →
      (r.success = true ↔ r.error = none)) :=
  ⟨fun net c prompt => (send_message_RespInv net c prompt).1,
   fun net env fault prompt models timeout r hr =>
     (send_to_models_RecInv net env fault prompt models timeout r hr).1⟩

theorem C8_error_iff_failure_witness :
    (rW ∈ (send_to_models netW envW (fun _ => none) "p" [mW] 60).1) ∧
    (rW.success = true ↔ rW.error = none) :=
  ⟨List.Mem.head _,
   C8_error_iff_failure.2 netW envW (fun _ => none) "p" [mW] 60 rW (List.Mem.head _)⟩

/-- C9: `send_message` issues at most one HTTP request — exactly one when the
client is configured, none otherwise — and the requests of one `send_to_models`
dispatch are exactly the concatenation, in input order, of one `send_message`
attempt per input model (hence at most one request per model, no retries). -/
theorem C9_single_attempt (net : HttpRequest → HttpResult)
    (env : String → Option String) (prompt : String) (models : List ModelRec)
    (timeout : Nat) (c : BaseAPIClient) :
    ((send_message net c prompt).2.length = if c.is_configured then 1 else 0) ∧
    ((send_to_models net env (fun _ => none) prompt models timeout).2 =
      (models.map (fun m => (send_message net (clientFor env m timeout) prompt).2)).flatten) ∧
    ((send_to_models net env (fun _ => none) prompt models timeout).2.length ≤
      models.length) := by
  have hdec : (send_to_models net env (fun _ => none) prompt models timeout).2 =
      (models.map (fun m => (send_message net (clientFor env m timeout) prompt).2)).flatten := by
    simp only [send_to_models, sendLoop_nofault_snd]
  refine ⟨send_message_req_count net c prompt, hdec, ?_⟩
  rw [hdec]
  refine mapFlatten_len_le _ (fun m => ?_) models
  rw [send_message_req_count]
  split <;> omega

/-- C10: a failed adapter outcome always carries empty content and zero tokens,
and a failed batch record's `response` field is the string `Ошибка: ` followed
by the error detail. -/
theorem C10_failed_outcome_shape :
    (∀ (net : HttpRequest → HttpResult) (c : BaseAPIClient) (prompt : String),
      (send_message net c prompt).1.success = false →
      (send_message net c prompt).1.content = .str "" ∧
      (send_message net c prompt).1.tokens = .num 0) ∧
    (∀ (net : HttpRequest → HttpResult) (env : String → Option String)
        (fault : Nat → Option String) (prompt : String) (models : List ModelRec)
        (timeout : Nat) (r : BatchRecord),
      r ∈ (send_to_models net env fault prompt models timeout).1 → r.success = false →
      ∃ e, r.error = some e ∧ r.response = .str ("Ошибка: " ++ e)) :=
  ⟨fun net c prompt => (send_message_RespInv net c prompt).2,
   fun net env fault prompt models timeout r hr =>
     (send_to_models_RecInv net env fault prompt models timeout r hr).2⟩

theorem C10_failed_outcome_shape_witness :
    ((send_message netW cOai "p").1.success = false) ∧
    ((send_message netW cOai "p").1.content = .str "" ∧
      (send_message netW cOai "p").1.tokens = .num 0) ∧
    (rW ∈ (send_to_models netW envW (fun _ => none) "p" [mW] 60).1) ∧
    (rW.success = false) ∧
    (∃ e, rW.error = some e ∧ rW.response = .str ("Ошибка: " ++ e)) :=
  ⟨rfl, C10_failed_outcome_shape.1 netW cOai "p" rfl,
   List.Mem.head _, rfl,
   C10_failed_outcome_shape.2 netW envW (fun _ => none) "p" [mW] 60 rW
     (List.Mem.head _) rfl⟩

/-- C4: `is_configured` is true iff the credential resolved from the configured
environment variable is a non-empty string; an unconfigured client's
`send_message` returns the NotConfigured failure and issues no HTTP request;
and when no model of a batch resolves a credential, every record is the
NotConfigured failure and the batch issues zero HTTP requests. -/
theorem C4_unconfigured_no_network :
    (∀ (env : String → Option String) (provider url keyEnv mid : String),
      ((get_client env provider url keyEnv mid).is_configured = true ↔
        (env keyEnv).getD "" ≠ "")) ∧
    (∀ (net : HttpRequest → HttpResult) (c : BaseAPIClient) (prompt : String),
      c.is_configured = false →
      send_message net c prompt = (APIResponse.fail "API-ключ не настроен", [])) ∧
    (∀ (net : HttpRequest → HttpResult) (env : String → Option String)
        (prompt : String) (models : List ModelRec) (timeout : Nat),
      (∀ m ∈ models, (env m.api_key_env).getD "" = "") →
      (∀ r ∈ (send_to_models net env (fun _ => none) prompt models timeout).1,
        r.success = false ∧ r.error = some "API-ключ не настроен") ∧
      (send_to_models net env (fun _ => none) prompt models timeout).2 = []) := by
  have hcfg : ∀ (env : String → Option String) (m : ModelRec) (timeout : Nat),
      (env m.api_key_env).getD "" = "" → (clientFor env m timeout).is_configured = false := by
    intro env m timeout h
    simp [clientFor, get_client, BaseAPIClient.is_configured, h]
  refine ⟨?_, ?_, ?_⟩
  · intro env provider url keyEnv mid
    simp [get_client, BaseAPIClient.is_configured, bne_iff_ne]
  · intro net c prompt h
    exact send_message_unconfigured net c prompt h
  · intro net env prompt models timeout hall
    constructor
    · intro r hr
      simp only [send_to_models, sendLoop_nofault_fst, List.mem_map] at hr
      obtain ⟨m, hm, rfl⟩ := hr
      have hu := send_message_unconfigured net (clientFor env m timeout) prompt
        (hcfg env m timeout (hall m hm))
      simp [send_single, hu, APIResponse.fail]
    · simp only [send_to_models, sendLoop_nofault_snd]
      refine mapFlatten_nil _ models (fun m hm => ?_)
      rw [send_message_unconfigured net (clientFor env m timeout) prompt
        (hcfg env m timeout (hall m hm))]

theorem C4_unconfigured_no_network_witness :
    ((envW mW.api_key_env).getD "" = "") ∧
    ((send_to_models netW envW (fun _ => none) "p" [mW] 60).2 = []) ∧
    (rW.success = false ∧ rW.error = some "API-ключ не настроен") :=
  ⟨rfl,
   (C4_unconfigured_no_network.2.2 netW envW "p" [mW] 60 (by decide)).2,
   (C4_unconfigured_no_network.2.2 netW envW "p" [mW] 60 (by decide)).1 rW
     (List.Mem.head _)⟩

/-- C2 counterexample: the Anthropic client, configured and receiving HTTP 500
with body `\x7b"error": \x7b"message": "boom"\x7d\x7d`, fails with error
`HTTP ошибка: 500`, which does not contain `boom` — refuting the claim that
every adapter's error contains both `500` and `boom` in this scenario. -/
theorem C2_counterexample :
    cAnth.is_configured = true ∧
    net500 (requestFor cAnth "p") = .response 500 "" (.ok boomBody) ∧
    (send_message net500 cAnth "p").1.success = false ∧
    (send_message net500 cAnth "p").1.error = some "HTTP ошибка: 500" ∧
    ¬ strHas "HTTP ошибка: 500" "boom" := by
  refine ⟨by decide, rfl, rfl, rfl, by decide⟩

/-- C2 (amended): on HTTP 500 with body `\x7b"error": \x7b"message": "boom"\x7d\x7d`,
a configured OpenAI-compatible or OpenRouter client fails with an error
containing both `500` and `boom`, while a configured Anthropic or Google client
fails with an error containing `500` but not `boom` (it reports only the
status code). -/
theorem C2_amended_http500 (net : HttpRequest → HttpResult) (c : BaseAPIClient)
    (prompt text : String) (hcfg : c.is_configured = true)
    (hnet : net (requestFor c prompt) = .response 500 text (.ok boomBody)) :
    (send_message net c prompt).1.success = false ∧
    ((c.kind = .openai ∨ c.kind = .openrouter) →
      ∃ e, (send_message net c prompt).1.error = some e ∧
        strHas e "500" ∧ strHas e "boom") ∧
    ((c.kind = .anthropic ∨ c.kind = .google) →
      ∃ e, (send_message net c prompt).1.error = some e ∧
        strHas e "500" ∧ ¬ strHas e "boom") := by
  cases hk : c.kind
  case openai =>
    rw [requestFor, hk] at hnet
    simp only [send_message, hk, OpenAIClient.send_message, hcfg, if_true]
    rw [hnet]
    have hh : openaiHandle (.response 500 text (.ok boomBody)) =
        APIResponse.fail "HTTP 500: boom" := rfl
    rw [hh]
    refine ⟨rfl, fun _ => ⟨"HTTP 500: boom", rfl, by decide, by decide⟩, fun hor => ?_⟩
    rcases hor with h | h <;> exact absurd h (by decide)
  case anthropic =>
    rw [requestFor, hk] at hnet
    simp only [send_message, hk, AnthropicClient.send_message, hcfg, if_true]
    rw [hnet]
    have hh : anthropicHandle (.response 500 text (.ok boomBody)) =
        APIResponse.fail "HTTP ошибка: 500" := rfl
    rw [hh]
    refine ⟨rfl, fun hor => ?_, fun _ => ⟨"HTTP ошибка: 500", rfl, by decide, by decide⟩⟩
    rcases hor with h | h <;> exact absurd h (by decide)
  case google =>
    rw [requestFor, hk] at hnet
    simp only [send_message, hk, GoogleClient.send_message, hcfg, if_true]
    rw [hnet]
    have hh : googleHandle (.response 500 text (.ok boomBody)) =
        APIResponse.fail "HTTP ошибка: 500" := rfl
    rw [hh]
    refine ⟨rfl, fun hor => ?_, fun _ => ⟨"HTTP ошибка: 500", rfl, by decide, by decide⟩⟩
    rcases hor with h | h <;> exact absurd h (by decide)
  case openrouter =>
    rw [requestFor, hk] at hnet
    simp only [send_message, hk, OpenRouterClient.send_message, hcfg, if_true]
    rw [hnet]
    have hh : openrouterHandle (.response 500 text (.ok boomBody)) =
        APIResponse.fail "HTTP 500: boom" := rfl
    rw [hh]
    refine ⟨rfl, fun _ => ⟨"HTTP 500: boom", rfl, by decide, by decide⟩, fun hor => ?_⟩
    rcases hor with h | h <;> exact absurd h (by decide)

theorem C2_amended_http500_witness :
    (cOai.is_configured = true) ∧
    (net500 (requestFor cOai "p") = .response 500 "" (.ok boomBody)) ∧
    ((send_message net500 cOai "p").1.success = false) ∧
    ((cOai.kind = .openai ∨ cOai.kind = .openrouter) →
      ∃ e, (send_message net500 cOai "p").1.error = some e ∧
        strHas e "500" ∧ strHas e "boom") :=
  ⟨by decide, rfl,
   (C2_amended_http500 net500 cOai "p" "" (by decide) rfl).1,
   (C2_amended_http500 net500 cOai "p" "" (by decide) rfl).2.1⟩

/-- C6: for every adapter, a 2xx response whose JSON body makes the field
extraction fail (missing key, wrong type) yields a failed outcome rather than
an exception; the outcome carries the extraction's error message whenever the
parse is actually reached (always for Anthropic/Google, at status 200 for the
OpenAI-compatible and OpenRouter clients, whose `status_code != 200` check
intercepts other 2xx statuses first). -/
theorem C6_malformed_body (net : HttpRequest → HttpResult) (c : BaseAPIClient)
    (prompt text m : String) (status : Nat) (body : PyVal)
    (hcfg : c.is_configured = true) (h2 : 200 ≤ status ∧ status < 300)
    (hnet : net (requestFor c prompt) = .response status text (.ok body))
    (hp : parseFor c.kind body = .error m) :
    (send_message net c prompt).1.success = false ∧
    ((send_message net c prompt).1.error).isSome = true ∧
    ((c.kind = .anthropic ∨ c.kind = .google ∨ status = 200) →
      (send_message net c prompt).1.error = some m) := by
  cases hk : c.kind
  case openai =>
    rw [requestFor, hk] at hnet
    rw [hk] at hp
    simp only [parseFor] at hp
    simp only [send_message, hk, OpenAIClient.send_message, hcfg, if_true]
    rw [hnet]
    by_cases hs : status = 200
    · subst hs
      simp only [openaiHandle, ne_eq, not_true_eq_false, if_false, hp]
      exact ⟨rfl, rfl, fun _ => rfl⟩
    · simp only [openaiHandle, ne_eq, hs, not_false_eq_true, if_true]
      refine ⟨rfl, rfl, fun hor => ?_⟩
      rcases hor with h | h | h
      · exact absurd h (by decide)
      · exact absurd h (by decide)
      · exact h.elim
  case anthropic =>
    rw [requestFor, hk] at hnet
    rw [hk] at hp
    simp only [parseFor] at hp
    simp only [send_message, hk, AnthropicClient.send_message, hcfg, if_true]
    rw [hnet]
    simp only [anthropicHandle, h2, if_true, hp]
    exact ⟨rfl, rfl, fun _ => rfl⟩
  case google =>
    rw [requestFor, hk] at hnet
    rw [hk] at hp
    simp only [parseFor] at hp
    simp only [send_message, hk, GoogleClient.send_message, hcfg, if_true]
    rw [hnet]
    simp only [googleHandle, h2, if_true, hp]
    exact ⟨rfl, rfl, fun _ => rfl⟩
  case openrouter =>
    rw [requestFor, hk] at hnet
    rw [hk] at hp
    simp only [parseFor] at hp
    simp only [send_message, hk, OpenRouterClient.send_message, hcfg, if_true]
    rw [hnet]
    by_cases hs : status = 200
    · subst hs
      simp only [openrouterHandle, ne_eq, not_true_eq_false, if_false, hp]
      exact ⟨rfl, rfl, fun _ => rfl⟩
    · simp only [openrouterHandle, ne_eq, hs, not_false_eq_true, if_true]
      refine ⟨rfl, rfl, fun hor => ?_⟩
      rcases hor with h | h | h
      · exact absurd h (by decide)
      · exact absurd h (by decide)
      · exact h.elim

theorem C6_malformed_body_witness :
    (cOai.is_configured = true) ∧ (200 ≤ 200 ∧ 200 < 300) ∧
    (net200bad (requestFor cOai "p") = .response 200 "" (.ok (.obj []))) ∧
    (parseFor cOai.kind (.obj []) = .error "'choices'") ∧
    ((send_message net200bad cOai "p").1.success = false ∧
     ((send_message net200bad cOai "p").1.error).isSome = true ∧
     ((cOai.kind = .anthropic ∨ cOai.kind = .google ∨ 200 = 200) →
       (send_message net200bad cOai "p").1.error = some "'choices'")) :=
  ⟨by decide, by decide, rfl, rfl,
   C6_malformed_body net200bad cOai "p" "" "'choices'" 200 (.obj [])
     (by decide) (by decide) rfl rfl⟩

theorem ok_bind {α β : Type} (a : α) (f : α → Except String β) :
    (Except.ok a : Except String α) >>= f = f a := rfl

theorem openaiTokens_some (fs us : List (String × PyVal)) (t : Int)
    (hus : fs.lookup "usage" = some (.obj us))
    (ht : us.lookup "total_tokens" = some (.num t)) :
    openaiTokens (.obj fs) = .ok (.num t) := by
  simp only [openaiTokens, PyVal.getA, hus, Option.getD_some, ok_bind, ht]

theorem openaiTokens_nousage (fs : List (String × PyVal))
    (h : fs.lookup "usage" = none) : openaiTokens (.obj fs) = .ok (.num 0) := by
  simp only [openaiTokens, PyVal.getA, h, Option.getD_none, ok_bind]
  rfl

theorem openaiParse_ok (result v tok : PyVal) (hc : openaiContent result = .ok v)
    (ht : openaiTokens result = .ok tok) : openaiParse result = .ok (v, tok) := by
  simp only [openaiParse, hc, ok_bind, ht]
  rfl

theorem openaiHandle_ok (text : String) (result v tok : PyVal)
    (hp : openaiParse result = .ok (v, tok)) :
    openaiHandle (.response 200 text (.ok result)) =
      { success := true, content := v, tokens := tok, error := none } := by
  simp [openaiHandle, hp]

theorem openrouterTokens_some (fs us : List (String × PyVal)) (t : Int)
    (hus : fs.lookup "usage" = some (.obj us))
    (ht : us.lookup "total_tokens" = some (.num t)) :
    openrouterTokens (.obj fs) = .ok (.num t) := by
  simp only [openrouterTokens, PyVal.getA, hus, Option.getD_some, ok_bind, ht]

theorem openrouterTokens_nousage (fs : List (String × PyVal))
    (h : fs.lookup "usage" = none) : openrouterTokens (.obj fs) = .ok (.num 0) := by
  simp only [openrouterTokens, PyVal.getA, h, Option.getD_none, ok_bind]
  rfl

theorem openrouterParse_ok (result v tok : PyVal)
    (hc : openrouterContent result = .ok v)
    (ht : openrouterTokens result = .ok tok) :
    openrouterParse result = .ok (v, tok) := by
  simp only [openrouterParse, hc, ok_bind, ht]
  rfl

theorem openrouterHandle_ok (text : String) (result v tok : PyVal)
    (hp : openrouterParse result = .ok (v, tok)) :
    openrouterHandle (.response 200 text (.ok result)) =
      { success := true, content := v, tokens := tok, error := none } := by
  simp [openrouterHandle, hp]

theorem anthropicTokens_some (fs us : List (String × PyVal)) (a b : Int)
    (hus : fs.lookup "usage" = some (.obj us))
    (hi : us.lookup "input_tokens" = some (.num a))
    (ho : us.lookup "output_tokens" = some (.num b)) :
    anthropicTokens (.obj fs) = .ok (.num (a + b)) := by
  simp only [anthropicTokens, PyVal.getA, hus, Option.getD_some, ok_bind, hi, ho]
  rfl

theorem anthropicTokens_nousage (fs : List (String × PyVal))
    (h : fs.lookup "usage" = none) : anthropicTokens (.obj fs) = .ok (.num 0) := by
  simp only [anthropicTokens, PyVal.getA, h, Option.getD_none, ok_bind]
  rfl

theorem anthropicParse_ok (result v tok : PyVal)
    (hc : anthropicContent result = .ok v)
    (ht : anthropicTokens result = .ok tok) :
    anthropicParse result = .ok (v, tok) := by
  simp only [anthropicParse, hc, ok_bind, ht]
  rfl

theorem anthropicHandle_ok (text : String) (result v tok : PyVal)
    (hp : anthropicParse result = .ok (v, tok)) :
    anthropicHandle (.response 200 text (.ok result)) =
      { success := true, content := v, tokens := tok, error := none } := by
  simp [anthropicHandle, hp]

theorem googleTokens_some (fs us : List (String × PyVal)) (t : Int)
    (hus : fs.lookup "usageMetadata" = some (.obj us))
    (ht : us.lookup "totalTokenCount" = some (.num t)) :
    googleTokens (.obj fs) = .ok (.num t) := by
  simp only [googleTokens, PyVal.getA, hus, Option.getD_some, ok_bind, ht]

theorem googleTokens_nousage (fs : List (String × PyVal))
    (h : fs.lookup "usageMetadata" = none) : googleTokens (.obj fs) = .ok (.num 0) := by
  simp only [googleTokens, PyVal.getA, h, Option.getD_none, ok_bind]
  rfl

theorem googleParse_ok (result v tok : PyVal) (hc : googleContent result = .ok v)
    (ht : googleTokens result = .ok tok) : googleParse result = .ok (v, tok) := by
  simp only [googleParse, hc, ok_bind, ht]
  rfl

theorem googleHandle_ok (text : String) (result v tok : PyVal)
    (hp : googleParse result = .ok (v, tok)) :
    googleHandle (.response 200 text (.ok result)) =
      { success := true, content := v, tokens := tok, error := none } := by
  simp [googleHandle, hp]

/-- C7: on a successful response the reported token count follows the provider
table — `usage.total_tokens` for the OpenAI-compatible and OpenRouter clients,
`usage.input_tokens + usage.output_tokens` for Anthropic,
`usageMetadata.totalTokenCount` for Google — and is 0 whenever the usage field
is absent from the response body. -/
theorem C7_token_accounting :
    (∀ (net : HttpRequest → HttpResult) (c : BaseAPIClient) (prompt text : String)
        (fs : List (String × PyVal)) (v : PyVal),
      c.kind = .openai → c.is_configured = true →
      net (openaiRequest c prompt) = .response 200 text (.ok (.obj fs)) →
      openaiContent (.obj fs) = .ok v →
      ((∀ us t, fs.lookup "usage" = some (.obj us) →
          us.lookup "total_tokens" = some (.num t) →
          (send_message net c prompt).1.success = true ∧
          (send_message net c prompt).1.tokens = .num t) ∧
       (fs.lookup "usage" = none →
          (send_message net c prompt).1.success = true ∧
          (send_message net c prompt).1.tokens = .num 0))) ∧
    (∀ (net : HttpRequest → HttpResult) (c : BaseAPIClient) (prompt text : String)
        (fs : List (String × PyVal)) (v : PyVal),
      c.kind = .openrouter → c.is_configured = true →
      net (openrouterRequest c prompt) = .response 200 text (.ok (.obj fs)) →
      openrouterContent (.obj fs) = .ok v →
      ((∀ us t, fs.lookup "usage" = some (.obj us) →
          us.lookup "total_tokens" = some (.num t) →
          (send_message net c prompt).1.success = true ∧
          (send_message net c prompt).1.tokens = .num t) ∧
       (fs.lookup "usage" = none →
          (send_message net c prompt).1.success = true ∧
          (send_message net c prompt).1.tokens = .num 0))) ∧
    (∀ (net : HttpRequest → HttpResult) (c : BaseAPIClient) (prompt text : String)
        (fs : List (String × PyVal)) (v : PyVal),
      c.kind = .anthropic → c.is_configured = true →
      net (anthropicRequest c prompt) = .response 200 text (.ok (.obj fs)) →
      anthropicContent (.obj fs) = .ok v →
      ((∀ us a b, fs.lookup "usage" = some (.obj us) →
          us.lookup "input_tokens" = some (.num a) →
          us.lookup "output_tokens" = some (.num b) →
          (send_message net c prompt).1.success = true ∧
          (send_message net c prompt).1.tokens = .num (a + b)) ∧
       (fs.lookup "usage" = none →
          (send_message net c prompt).1.success = true ∧
          (send_message net c prompt).1.tokens = .num 0))) ∧
    (∀ (net : HttpRequest → HttpResult) (c : BaseAPIClient) (prompt text : String)
        (fs : List (String × PyVal)) (v : PyVal),
      c.kind = .google → c.is_configured = true →
      net (googleRequest c prompt) = .response 200 text (.ok (.obj fs)) →
      googleContent (.obj fs) = .ok v →
      ((∀ us t, fs.lookup "usageMetadata" = some (.obj us) →
          us.lookup "totalTokenCount" = some (.num t) →
          (send_message net c prompt).1.success = true ∧
          (send_message net c prompt).1.tokens = .num t) ∧
       (fs.lookup "usageMetadata" = none →
          (send_message net c prompt).1.success = true ∧
          (send_message net c prompt).1.tokens = .num 0))) := by
  refine ⟨?_, ?_, ?_, ?_⟩
  · intro net c prompt text fs v hk hcfg hnet hv
    constructor
    · intro us t hus ht
      have hh := openaiHandle_ok text (.obj fs) v (.num t)
        (openaiParse_ok (.obj fs) v (.num t) hv (openaiTokens_some fs us t hus ht))
      simp only [send_message, hk, OpenAIClient.send_message, hcfg, if_true]
      rw [hnet, hh]
      exact ⟨rfl, rfl⟩
    · intro hnone
      have hh := openaiHandle_ok text (.obj fs) v (.num 0)
        (openaiParse_ok (.obj fs) v (.num 0) hv (openaiTokens_nousage fs hnone))
      simp only [send_message, hk, OpenAIClient.send_message, hcfg, if_true]
      rw [hnet, hh]
      exact ⟨rfl, rfl⟩
  · intro net c prompt text fs v hk hcfg hnet hv
    constructor
    · intro us t hus ht
      have hh := openrouterHandle_ok text (.obj fs) v (.num t)
        (openrouterParse_ok (.obj fs) v (.num t) hv (openrouterTokens_some fs us t hus ht))
      simp only [send_message, hk, OpenRouterClient.send_message, hcfg, if_true]
      rw [hnet, hh]
      exact ⟨rfl, rfl⟩
    · intro hnone
      have hh := openrouterHandle_ok text (.obj fs) v (.num 0)
        (openrouterParse_ok (.obj fs) v (.num 0) hv (openrouterTokens_nousage fs hnone))
      simp only [send_message, hk, OpenRouterClient.send_message, hcfg, if_true]
      rw [hnet, hh]
      exact ⟨rfl, rfl⟩
  · intro net c prompt text fs v hk hcfg hnet hv
    constructor
    · intro us a b hus hi ho
      have hh := anthropicHandle_ok text (.obj fs) v (.num (a + b))
        (anthropicParse_ok (.obj fs) v (.num (a + b)) hv
          (anthropicTokens_some fs us a b hus hi ho))
      simp only [send_message, hk, AnthropicClient.send_message, hcfg, if_true]
      rw [hnet, hh]
      exact ⟨rfl, rfl⟩
    · intro hnone
      have hh := anthropicHandle_ok text (.obj fs) v (.num 0)
        (anthropicParse_ok (.obj fs) v (.num 0) hv (anthropicTokens_nousage fs hnone))
      simp only [send_message, hk, AnthropicClient.send_message, hcfg, if_true]
      rw [hnet, hh]
      exact ⟨rfl, rfl⟩
  · intro net c prompt text fs v hk hcfg hnet hv
    constructor
    · intro us t hus ht
      have hh := googleHandle_ok text (.obj fs) v (.num t)
        (googleParse_ok (.obj fs) v (.num t) hv (googleTokens_some fs us t hus ht))
      simp only [send_message, hk, GoogleClient.send_message, hcfg, if_true]
      rw [hnet, hh]
      exact ⟨rfl, rfl⟩
    · intro hnone
      have hh := googleHandle_ok text (.obj fs) v (.num 0)
        (googleParse_ok (.obj fs) v (.num 0) hv (googleTokens_nousage fs hnone))
      simp only [send_message, hk, GoogleClient.send_message, hcfg, if_true]
      rw [hnet, hh]
      exact ⟨rfl, rfl⟩

theorem C7_token_accounting_witness :
    (cOai.kind = .openai) ∧ (cOai.is_configured = true) ∧
    (netTok (openaiRequest cOai "p") = .response 200 ""
      (.ok (.obj [("choices", .arr [.obj [("message", .obj [("content", .str "hi")])]]),
                  ("usage", .obj [("total_tokens", .num 42)])]))) ∧
    (openaiContent (.obj [("choices", .arr [.obj [("message", .obj [("content", .str "hi")])]]),
                  ("usage", .obj [("total_tokens", .num 42)])]) = .ok (.str "hi")) ∧
    ((send_message netTok cOai "p").1.success = true ∧
     (send_message netTok cOai "p").1.tokens = .num 42) :=
  ⟨rfl, by decide, rfl, rfl,
   (C7_token_accounting.1 netTok cOai "p" ""
      [("choices", .arr [.obj [("message", .obj [("content", .str "hi")])]]),
       ("usage", .obj [("total_tokens", .num 42)])] (.str "hi")
      rfl (by decide) rfl rfl).1 [("total_tokens", .num 42)] 42 rfl rfl⟩
